import Mathlib

/-!
Shallow embedding of `src/app.py` (Flask app `solarsystem`).

The app has two JSON endpoints:
  * `planet_info` (`GET /api/planet-info/<planet_name>`): builds a dict of the
    eight planets inside the handler body, looks up `planet_name.lower()` with
    default `{}`, and returns it via `jsonify` (HTTP 200).
  * `sun_info` (`GET /api/sun-info`): returns a fixed Sun dict via `jsonify`
    (HTTP 200).

JSON objects are modelled as association lists `List (String × JsonVal)` in
insertion order; Python ints are modelled as `Int`.  Python's `str.lower()` is
modelled by `pyLower`, the per-character ASCII case-fold (the identifiers in
the table are ASCII, so this is faithful on the relevant alphabet).
-/

/-- A JSON value occurring in the app's responses: a string or an integer. -/
inductive JsonVal where
  | str : String → JsonVal
  | int : Int → JsonVal
deriving DecidableEq, Repr

/-- A JSON object, as an association list in insertion order. -/
abbrev Record := List (String × JsonVal)

/-- ASCII lowering of one character, modelling Python's `str.lower` on the
ASCII range: `A`–`Z` maps to `a`–`z`, everything else is unchanged. -/
def lowerChar (c : Char) : Char :=
  if 65 ≤ c.toNat ∧ c.toNat ≤ 90 then Char.ofNat (c.toNat + 32) else c

/-- Model of Python's `planet_name.lower()`: lower every character. -/
def pyLower (s : String) : String :=
  ⟨s.data.map lowerChar⟩

/-- The `'mercury'` entry of the dict literal in `planet_info` (app.py:25-34). -/
def mercuryRecord : Record :=
  [("name", .str "Mercury"),
   ("diameter", .str "4,879 km"),
   ("distance_from_sun", .str "57.9 million km"),
   ("orbital_period", .str "88 Earth days"),
   ("day_length", .str "59 Earth days"),
   ("temperature", .str "-180°C to 430°C"),
   ("moons", .int 0),
   ("description", .str "Mercury is the smallest planet in our solar system and closest to the Sun.")]

/-- The `'venus'` entry of the dict literal in `planet_info` (app.py:35-44). -/
def venusRecord : Record :=
  [("name", .str "Venus"),
   ("diameter", .str "12,104 km"),
   ("distance_from_sun", .str "108.2 million km"),
   ("orbital_period", .str "225 Earth days"),
   ("day_length", .str "243 Earth days"),
   ("temperature", .str "465°C (average)"),
   ("moons", .int 0),
   ("description", .str "Venus is the hottest planet in our solar system due to its thick atmosphere.")]

/-- The `'earth'` entry of the dict literal in `planet_info` (app.py:45-54). -/
def earthRecord : Record :=
  [("name", .str "Earth"),
   ("diameter", .str "12,742 km"),
   ("distance_from_sun", .str "149.6 million km"),
   ("orbital_period", .str "365.25 days"),
   ("day_length", .str "24 hours"),
   ("temperature", .str "15°C (average)"),
   ("moons", .int 1),
   ("description", .str "Earth is the only planet known to support life.")]

/-- The `'mars'` entry of the dict literal in `planet_info` (app.py:55-64). -/
def marsRecord : Record :=
  [("name", .str "Mars"),
   ("diameter", .str "6,779 km"),
   ("distance_from_sun", .str "227.9 million km"),
   ("orbital_period", .str "687 Earth days"),
   ("day_length", .str "24.6 hours"),
   ("temperature", .str "-65°C (average)"),
   ("moons", .int 2),
   ("description", .str "Mars is known as the Red Planet due to iron oxide on its surface.")]

/-- The `'jupiter'` entry of the dict literal in `planet_info` (app.py:65-74). -/
def jupiterRecord : Record :=
  [("name", .str "Jupiter"),
   ("diameter", .str "139,820 km"),
   ("distance_from_sun", .str "778.5 million km"),
   ("orbital_period", .str "11.86 Earth years"),
   ("day_length", .str "9.93 hours"),
   ("temperature", .str "-110°C (cloud top)"),
   ("moons", .int 95),
   ("description", .str "Jupiter is the largest planet in our solar system with the famous Great Red Spot.")]

/-- The `'saturn'` entry of the dict literal in `planet_info` (app.py:75-84). -/
def saturnRecord : Record :=
  [("name", .str "Saturn"),
   ("diameter", .str "116,460 km"),
   ("distance_from_sun", .str "1.4 billion km"),
   ("orbital_period", .str "29.46 Earth years"),
   ("day_length", .str "10.7 hours"),
   ("temperature", .str "-140°C (cloud top)"),
   ("moons", .int 146),
   ("description", .str "Saturn is famous for its stunning ring system made of ice and rock.")]

/-- The `'uranus'` entry of the dict literal in `planet_info` (app.py:85-94). -/
def uranusRecord : Record :=
  [("name", .str "Uranus"),
   ("diameter", .str "50,724 km"),
   ("distance_from_sun", .str "2.9 billion km"),
   ("orbital_period", .str "84 Earth years"),
   ("day_length", .str "17.2 hours"),
   ("temperature", .str "-195°C (cloud top)"),
   ("moons", .int 28),
   ("description", .str "Uranus rotates on its side, possibly due to a collision with an Earth-sized object.")]

/-- The `'neptune'` entry of the dict literal in `planet_info` (app.py:95-104). -/
def neptuneRecord : Record :=
  [("name", .str "Neptune"),
   ("diameter", .str "49,244 km"),
   ("distance_from_sun", .str "4.5 billion km"),
   ("orbital_period", .str "164.8 Earth years"),
   ("day_length", .str "16.1 hours"),
   ("temperature", .str "-200°C (cloud top)"),
   ("moons", .int 16),
   ("description", .str "Neptune has the strongest winds in the solar system, reaching 2,100 km/h.")]

/-- The dict literal `planets` built inside `planet_info` on every call
(app.py:24-105).  The `Unit` argument models the per-request construction:
each invocation of the handler evaluates `planetsDict ()` afresh. -/
def planetsDict (_ : Unit) : List (String × Record) :=
  [("mercury", mercuryRecord),
   ("venus", venusRecord),
   ("earth", earthRecord),
   ("mars", marsRecord),
   ("jupiter", jupiterRecord),
   ("saturn", saturnRecord),
   ("uranus", uranusRecord),
   ("neptune", neptuneRecord)]

/-- The eight known planet identifiers, in the dict's insertion order. -/
def planetKeys : List String :=
  ["mercury", "venus", "earth", "mars", "jupiter", "saturn", "uranus", "neptune"]

/-- The handler `planet_info` (app.py:21-108): build the dict, look up the
lowercased path segment with default `{}` (`planets.get(planet_name.lower(), {})`),
and return it via `jsonify`, which yields an HTTP 200 response.  The result is
the pair (status code, JSON body). -/
def planet_info (planet_name : String) : Nat × Record :=
  let planets := planetsDict ()
  let planet_data := (planets.lookup (pyLower planet_name)).getD []
  (200, planet_data)

/-- The Sun dict literal returned by `sun_info` (app.py:114-124). -/
def sunRecord : Record :=
  [("name", .str "Sun"),
   ("type", .str "G-type main-sequence star"),
   ("diameter", .str "1,392,700 km"),
   ("mass", .str "1.989 × 10³⁰ kg"),
   ("surface_temperature", .str "5,500°C"),
   ("core_temperature", .str "15 million°C"),
   ("age", .str "4.6 billion years"),
   ("composition", .str "73% Hydrogen, 25% Helium"),
   ("description", .str "The Sun is the star at the center of our Solar System. It provides the energy that sustains life on Earth.")]

/-- The handler `sun_info` (app.py:111-124): no input (the `Unit` argument
models one invocation), always returns the fixed Sun dict via `jsonify`
(HTTP 200). -/
def sun_info (_ : Unit) : Nat × Record :=
  (200, sunRecord)

/-- Modelled from the spec (§9, design note): the same planet table as a
single process-wide immutable value, initialized once rather than rebuilt
per request. -/
def planetsTable : List (String × Record) :=
  [("mercury", mercuryRecord),
   ("venus", venusRecord),
   ("earth", earthRecord),
   ("mars", marsRecord),
   ("jupiter", jupiterRecord),
   ("saturn", saturnRecord),
   ("uranus", uranusRecord),
   ("neptune", neptuneRecord)]

/-- Modelled from the spec (§9): the lookup endpoint re-architected to consult
the fixed startup table instead of a per-request dict. -/
def planet_info_fixedTable (planet_name : String) : Nat × Record :=
  (200, (planetsTable.lookup (pyLower planet_name)).getD [])

example : planet_info "Mars" = (200, marsRecord) := by decide
example : planet_info "pluto" = (200, []) := by decide
example : pyLower "EARTH" = "earth" := by decide

/-- Capitalization of an identifier: upper the first character (the canonical
display names of the eight planets are exactly their keys capitalized). -/
def capFirst (s : String) : String :=
  match s.data with
  | [] => ""
  | c :: cs => ⟨(if 97 ≤ c.toNat ∧ c.toNat ≤ 122 then Char.ofNat (c.toNat - 32) else c) :: cs⟩

/-- Is this looked-up field present and a JSON string? -/
def isTextVal : Option JsonVal → Bool
  | some (JsonVal.str _) => true
  | _ => false

/-- Is this looked-up field present and a non-negative JSON integer? -/
def isNonnegIntVal : Option JsonVal → Bool
  | some (JsonVal.int m) => decide (0 ≤ m)
  | _ => false

theorem toNat_ofNat_valid (n : Nat) (h : n.isValidChar) : (Char.ofNat n).toNat = n := by
  simp [Char.ofNat, h, Char.ofNatAux, Char.toNat, UInt32.toNat]

theorem lowerChar_idem (c : Char) : lowerChar (lowerChar c) = lowerChar c := by
  unfold lowerChar
  by_cases h : 65 ≤ c.toNat ∧ c.toNat ≤ 90
  · have hv : (c.toNat + 32).isValidChar := by
      unfold Nat.isValidChar
      left; omega
    have ht : (Char.ofNat (c.toNat + 32)).toNat = c.toNat + 32 := toNat_ofNat_valid _ hv
    simp [h, ht]
    omega
  · simp [h]

theorem pyLower_idem (s : String) : pyLower (pyLower s) = pyLower s := by
  unfold pyLower
  simp [List.map_map, Function.comp_def, lowerChar_idem]

theorem lookup_eq_none_of_not_mem {β : Type} (k : String) (l : List (String × β))
    (h : k ∉ l.map Prod.fst) : l.lookup k = none := by
  induction l with
  | nil => rfl
  | cons p t ih =>
    simp only [List.map_cons, List.mem_cons, not_or] at h
    have hne : (k == p.1) = false := beq_eq_false_iff_ne.mpr h.1
    simp only [List.lookup, hne]
    exact ih h.2

theorem lookup_planets_eq_none (s : String) (h : pyLower s ∉ planetKeys) :
    (planetsDict ()).lookup (pyLower s) = none := by
  apply lookup_eq_none_of_not_mem
  exact h

/-- C1: for every identifier string whose lowercasing is not one of the eight
planet keys (e.g. "pluto", "", "xyz123"), the `planet_info` handler returns
HTTP 200 with an empty JSON object, and — being a total function — raises no
error. -/
theorem getPlanet_unknown_empty (s : String) (h : pyLower s ∉ planetKeys) :
    planet_info s = (200, []) := by
  simp [planet_info, lookup_planets_eq_none s h]

/-- C1 witness: the concrete unknown identifier "pluto". -/
theorem getPlanet_unknown_empty_witness : planet_info "pluto" = (200, ([] : Record)) :=
  getPlanet_unknown_empty "pluto" (by decide)

/-- C2: for every case variant of one of the eight known identifiers, the
record returned by `planet_info` has a `name` field equal to the canonical
capitalized name of that planet (the key with its first letter uppercased:
"Mercury", "Venus", "Earth", "Mars", "Jupiter", "Saturn", "Uranus",
"Neptune"). -/
theorem getPlanet_known_name (s : String) (h : pyLower s ∈ planetKeys) :
    ((planet_info s).2).lookup "name" = some (JsonVal.str (capFirst (pyLower s))) := by
  simp only [planetKeys, List.mem_cons, List.not_mem_nil, or_false] at h
  rcases h with h | h | h | h | h | h | h | h <;>
    (simp only [planet_info]; rw [h]; decide)

/-- C2 witness: the concrete case variant "EARTH". -/
theorem getPlanet_known_name_witness :
    ((planet_info "EARTH").2).lookup "name" = some (JsonVal.str (capFirst (pyLower "EARTH"))) :=
  getPlanet_known_name "EARTH" (by decide)

/-- C3: `planet_info "Mars"` returns exactly the Mars record of the spec's
concrete scenario, with no other fields (the association list is equal as a
whole, so the field set is exact). -/
theorem getPlanet_mars_exact :
    planet_info "Mars" = (200,
      [("name", JsonVal.str "Mars"),
       ("diameter", JsonVal.str "6,779 km"),
       ("distance_from_sun", JsonVal.str "227.9 million km"),
       ("orbital_period", JsonVal.str "687 Earth days"),
       ("day_length", JsonVal.str "24.6 hours"),
       ("temperature", JsonVal.str "-65°C (average)"),
       ("moons", JsonVal.int 2),
       ("description", JsonVal.str "Mars is known as the Red Planet due to iron oxide on its surface.")]) := by
  decide

/-- C4: `sun_info` takes no input, never fails (it is a total function), and
always returns HTTP 200 with exactly the fixed Sun record. -/
theorem getSun_fixed :
    sun_info () = (200,
      [("name", JsonVal.str "Sun"),
       ("type", JsonVal.str "G-type main-sequence star"),
       ("diameter", JsonVal.str "1,392,700 km"),
       ("mass", JsonVal.str "1.989 × 10³⁰ kg"),
       ("surface_temperature", JsonVal.str "5,500°C"),
       ("core_temperature", JsonVal.str "15 million°C"),
       ("age", JsonVal.str "4.6 billion years"),
       ("composition", JsonVal.str "73% Hydrogen, 25% Helium"),
       ("description", JsonVal.str "The Sun is the star at the center of our Solar System. It provides the energy that sustains life on Earth.")]) := by
  decide

/-- C5: the mapping consulted by `planet_info` has exactly 8 entries, its key
list is exactly the eight planet identifiers (pairwise distinct), it is the
same on every invocation (the `Unit` argument is irrelevant), and every call
of `planet_info` resolves through this same mapping. -/
theorem planets_mapping_eight_fixed :
    (planetsDict ()).length = 8 ∧
    (planetsDict ()).map Prod.fst =
      ["mercury", "venus", "earth", "mars", "jupiter", "saturn", "uranus", "neptune"] ∧
    ((planetsDict ()).map Prod.fst).Nodup ∧
    (∀ u : Unit, planetsDict u = planetsDict ()) ∧
    (∀ s : String, planet_info s = (200, ((planetsDict ()).lookup (pyLower s)).getD [])) :=
  ⟨rfl, rfl, by decide, fun _ => rfl, fun _ => rfl⟩

/-- C6: `planet_info` matches by case-folding then exact lookup: the result on
`s` equals the result on `pyLower s`, and an input whose lowercased form is
not exactly one of the eight keys (e.g. "terra", " earth", "earths") matches
nothing — no partial, fuzzy or alias matching. -/
theorem getPlanet_casefold_exact (s : String) :
    planet_info s = planet_info (pyLower s) ∧
    (pyLower s ∉ planetKeys → (planet_info s).2 = []) := by
  constructor
  · simp [planet_info, pyLower_idem]
  · intro h
    simp [planet_info, lookup_planets_eq_none s h]

/-- C6 witness: the concrete non-key "terra" (no aliasing to "earth"). -/
theorem getPlanet_casefold_exact_witness :
    planet_info "terra" = planet_info (pyLower "terra") ∧ (planet_info "terra").2 = [] :=
  ⟨(getPlanet_casefold_exact "terra").1,
   (getPlanet_casefold_exact "terra").2 (by decide)⟩

/-- C7 counterexample: the claim says the Sun record does not contain a
`diameter` field, but the record returned by `sun_info` does contain one
(app.py:117), so the lookup of "diameter" is not `none`. -/
theorem sun_diameter_present_counterexample :
    ¬ ((sun_info ()).2).lookup "diameter" = none := by
  decide

/-- C7 amended: the record returned by `sun_info` contains exactly the fields
`name`, `type`, `diameter`, `mass`, `surface_temperature`, `core_temperature`,
`age`, `composition`, `description` — i.e. it carries `type`, `mass`,
`surface_temperature`, `core_temperature`, `age`, `composition` in place of
`distance_from_sun`, `orbital_period`, `day_length`, `temperature`, `moons`,
while retaining `diameter`. -/
theorem sun_record_fields_amended :
    ((sun_info ()).2).map Prod.fst =
      ["name", "type", "diameter", "mass", "surface_temperature", "core_temperature",
       "age", "composition", "description"] ∧
    ((sun_info ()).2).lookup "distance_from_sun" = none ∧
    ((sun_info ()).2).lookup "orbital_period" = none ∧
    ((sun_info ()).2).lookup "day_length" = none ∧
    ((sun_info ()).2).lookup "temperature" = none ∧
    ((sun_info ()).2).lookup "moons" = none := by
  decide

/-- C8: in every record returned by `planet_info` for a known identifier, the
`moons` field is a non-negative integer, the `name` field is text, and each of
the remaining fields (`diameter`, `distance_from_sun`, `orbital_period`,
`day_length`, `temperature`, `description`) is text. -/
theorem getPlanet_known_field_types (s : String) (h : pyLower s ∈ planetKeys) :
    isNonnegIntVal (((planet_info s).2).lookup "moons") = true ∧
    isTextVal (((planet_info s).2).lookup "name") = true ∧
    (["diameter", "distance_from_sun", "orbital_period", "day_length", "temperature",
      "description"].all fun f => isTextVal (((planet_info s).2).lookup f)) = true := by
  simp only [planetKeys, List.mem_cons, List.not_mem_nil, or_false] at h
  rcases h with h | h | h | h | h | h | h | h <;>
    (simp only [planet_info]; rw [h]; decide)

/-- C8 witness: the concrete known identifier "Earth". -/
theorem getPlanet_known_field_types_witness :
    isNonnegIntVal (((planet_info "Earth").2).lookup "moons") = true ∧
    isTextVal (((planet_info "Earth").2).lookup "name") = true ∧
    (["diameter", "distance_from_sun", "orbital_period", "day_length", "temperature",
      "description"].all fun f => isTextVal (((planet_info "Earth").2).lookup f)) = true :=
  getPlanet_known_field_types "Earth" (by decide)

/-- C9: `sun_info` is deterministic and idempotent — any two invocations (the
state of a call is only the trivial `Unit`, since the app holds no mutable
state) return identical responses, namely the fixed Sun record. -/
theorem getSun_deterministic_idempotent :
    (∀ u v : Unit, sun_info u = sun_info v) ∧ ∀ u : Unit, sun_info u = (200, sunRecord) :=
  ⟨fun _ _ => rfl, fun _ => rfl⟩

/-- C10: the dict `planet_info` rebuilds per call is a constant — the same on
every invocation and equal to the fixed startup table of the spec's design
note — so the per-request implementation is observably equivalent to the
fixed-table lookup on every input. -/
theorem planet_info_refines_fixed_table :
    (∀ u v : Unit, planetsDict u = planetsDict v) ∧
    planetsDict () = planetsTable ∧
    ∀ s : String, planet_info s = planet_info_fixedTable s :=
  ⟨fun _ _ => rfl, rfl, fun _ => rfl⟩
